import Mathlib

/-!
Verification of the HVQ directory kiosk's orchestration / normalization layer.

JavaScript modelling conventions used throughout this development:
* a JS string is a Lean `String` (a structure holding a `List Char`);
* a field that may be absent or `null`/`undefined` is an `Option String`
  (`none` = absent or nullish, `some s` = present with `String(...)` image `s`);
* the nullish-coalescing chain `a ?? b` on such fields is `a <|> b`;
* JS string truthiness (`""` is falsy) is the test `s ≠ ""`;
* `String(x ?? "")` on an optional field is `jstr`.
-/

namespace JSStr

/-- Model of `String(x ?? "")`: render an optional string, empty when nullish. -/
def jstr (o : Option String) : String := o.getD ""

/-- Characters removed by the model of `String.prototype.trim`
(the common whitespace code points). -/
def isWS (c : Char) : Bool :=
  c.toNat = 9 || c.toNat = 10 || c.toNat = 11 || c.toNat = 12 ||
  c.toNat = 13 || c.toNat = 32 || c.toNat = 160

/-- Drop the longest suffix of characters satisfying `p` (used to trim at the
right end without `reverse`). -/
def dropEndWhile (p : Char → Bool) : List Char → List Char
  | [] => []
  | c :: rest =>
    match dropEndWhile p rest with
    | [] => if p c then [] else [c]
    | d :: ds => c :: d :: ds

/-- Model of `String.prototype.trim` on the character list. -/
def jsTrimL (l : List Char) : List Char := dropEndWhile isWS (l.dropWhile isWS)

/-- Model of `String.prototype.trim`. -/
def jsTrim (s : String) : String := ⟨jsTrimL s.data⟩

/-- Decimal-digit test, mirroring the regex class `\d`. -/
def isDigitC (c : Char) : Bool := 48 ≤ c.toNat && c.toNat ≤ 57

/-- Lower-case model of `String.prototype.toLowerCase` at one character
(ASCII plus the Latin-1 uppercase range). -/
def lowerChar (c : Char) : Char :=
  if 65 ≤ c.toNat && c.toNat ≤ 90 then Char.ofNat (c.toNat + 32)
  else if 192 ≤ c.toNat && c.toNat ≤ 222 && c.toNat ≠ 215 then Char.ofNat (c.toNat + 32)
  else c

/-- Upper-case model of `String.prototype.toUpperCase` at one character
(ASCII plus the Latin-1 lowercase range). -/
def upperChar (c : Char) : Char :=
  if 97 ≤ c.toNat && c.toNat ≤ 122 then Char.ofNat (c.toNat - 32)
  else if 224 ≤ c.toNat && c.toNat ≤ 254 && c.toNat ≠ 247 then Char.ofNat (c.toNat - 32)
  else c

/-- Model of `String.prototype.toLowerCase`. -/
def jsLower (s : String) : String := ⟨s.data.map lowerChar⟩

/-- Model of `String.prototype.toUpperCase`. -/
def jsUpper (s : String) : String := ⟨s.data.map upperChar⟩

/-- `startsWithL hay needle`: does `hay` begin with `needle`? -/
def startsWithL : List Char → List Char → Bool
  | _, [] => true
  | [], _ :: _ => false
  | h :: hs, n :: ns => h = n && startsWithL hs ns

/-- `containsSub needle hay`: does `needle` occur contiguously inside `hay`?
This is the model of `/pat/.test(s)` for an alternation of literal patterns. -/
def containsSub (needle : List Char) : List Char → Bool
  | [] => startsWithL [] needle
  | c :: hs => startsWithL (c :: hs) needle || containsSub needle hs

end JSStr

open JSStr

namespace ApiSvc

/-! Part of `src/lib/constants.ts` (`ApiService`).  `toHHmm` is the time
normalizer defined inside `getAgendasDetalladasPorMedico`. -/

/-- The regex `^\d{2}:\d{2}$`. -/
def isHHmm (l : List Char) : Bool :=
  match l with
  | [a, b, c, d, e] => isDigitC a && isDigitC b && (c = ':') && isDigitC d && isDigitC e
  | _ => false

/-- The regex `^\d{2}:\d{2}:\d{2}$`. -/
def isHHmmSS (l : List Char) : Bool :=
  match l with
  | [a, b, c, d, e, f, g, h] =>
    isDigitC a && isDigitC b && (c = ':') && isDigitC d && isDigitC e &&
    (f = ':') && isDigitC g && isDigitC h
  | _ => false

/-- The regex `^\d{3,4}$`. -/
def isNum34 (l : List Char) : Bool :=
  (l.length = 3 || l.length = 4) && l.all isDigitC

/-- Model of `str.padStart(4, '0')` for strings of length at most 4. -/
def pad4 (l : List Char) : List Char := List.replicate (4 - l.length) '0' ++ l

/-- `${padded.slice(0, 2)}:${padded.slice(2)}`. -/
def splitColon (l : List Char) : List Char := l.take 2 ++ ':' :: l.drop 2

/-- `toHHmm` from `getAgendasDetalladasPorMedico` in `src/lib/constants.ts`:
converts assorted time formats to `HH:mm`.  A nullish argument is `none`. -/
def toHHmm (value : Option String) : String :=
  match value with
  | none => ""
  | some v =>
    let str := jsTrimL v.data
    if str.isEmpty then ""
    else if isHHmm str then ⟨str⟩
    else if isHHmmSS str then ⟨str.take 5⟩
    else if isNum34 str then ⟨splitColon (pad4 str)⟩
    else
      let onlyDigits := str.filter isDigitC
      if 3 ≤ onlyDigits.length && onlyDigits.length ≤ 4 then ⟨splitColon (pad4 onlyDigits)⟩
      else ⟨str⟩

end ApiSvc

namespace NormalizationService

/-!
The data-normalization utility service (`slugify`, `isProcedure`, `isConsulta`,
`getBuildingDisplayName`).  The `useDataNormalization` hook duplicates
`slugify` and `getBuildingDisplayName` verbatim; its classifier pair differs
and is embedded separately below.
-/

/-- The character class `[a-z0-9]` of the slug regexes. -/
def isAlnumLower (c : Char) : Bool :=
  (97 ≤ c.toNat && c.toNat ≤ 122) || (48 ≤ c.toNat && c.toNat ≤ 57)

/-- Characters a slug may contain: `[a-z0-9-]`. -/
def isSlugChar (c : Char) : Bool := isAlnumLower c || c = '-'

/-- The regex class `[̀-ͯ]` of combining marks stripped after NFD. -/
def isCombiningMark (c : Char) : Bool := 768 ≤ c.toNat && c.toNat ≤ 879

/-- The hyphen test of `replace(/^-+|-+$/g, '')`. -/
def isDash (c : Char) : Bool := c = '-'

/-- State machine for `replace(/[^a-z0-9]+/g, '-')`: every maximal run of
non-`[a-z0-9]` characters becomes a single hyphen.  The flag records whether
the previous character was part of such a run. -/
def dashifyAux : List Char → Bool → List Char
  | [], _ => []
  | c :: rest, prevDash =>
    if isAlnumLower c then c :: dashifyAux rest false
    else if prevDash then dashifyAux rest true
    else '-' :: dashifyAux rest true

/-- `replace(/[^a-z0-9]+/g, '-')`. -/
def dashify (l : List Char) : List Char := dashifyAux l false

/-- `replace(/^-+|-+$/g, '')`: drop the leading and the trailing hyphen run. -/
def trimDashes (l : List Char) : List Char := dropEndWhile isDash (l.dropWhile isDash)

/-- The pipeline of `slugify` after `normalize('NFD')`: strip combining marks,
lower-case, trim, collapse non-alphanumeric runs to hyphens, strip edge
hyphens. -/
def slugCore (l : List Char) : List Char :=
  trimDashes (dashify (jsTrimL ((l.filter (fun c => !isCombiningMark c)).map lowerChar)))

/-- `slugify` from the normalization service (and, identically, from the
`useDataNormalization` hook).  `nfd` is the model of the host primitive
`String.prototype.normalize('NFD')`; the rest of the pipeline follows the
source.  (`String(input || "")` is the identity on Lean strings since the
falsy case only maps `""` to `""`.) -/
def slugify (nfd : String → String) (input : String) : String :=
  ⟨slugCore (nfd input).data⟩

/-- The alternatives of the regex `(proced|qx|quir|cirug)`. -/
def procPatterns : List String := [("proced"), ("qx"), ("quir"), ("cirug")]

/-- `isProcedure` from the normalization service:
`/(proced|qx|quir|cirug)/.test((tipo || '').toLowerCase())`. -/
def isProcedure (tipo : Option String) : Bool :=
  let t := jsLower (jstr tipo)
  procPatterns.any (fun p => containsSub p.data t.data)

/-- `isConsulta` from the normalization service: `!isProcedure(tipo)`. -/
def isConsulta (tipo : Option String) : Bool := !isProcedure tipo

/-- `getBuildingDisplayName`: `none` models `undefined` (or another falsy
code); the body follows the source, including the `trim()`. -/
def getBuildingDisplayName (buildingCode : Option String) : String :=
  match buildingCode with
  | none => "No especificado"
  | some s =>
    if s = "" then ("No especificado")
    else
      let code := jsTrim s
      if code = "1" then ("Principal")
      else if code = "2" then ("Torre Bless")
      else code

end NormalizationService

namespace useDataNormalization

/-! The hook variants (`useDataNormalization` in the hooks module).  Its
`isProcedure` matches the service's; its `isConsulta` instead tests the
positive regex `(consulta|cons|medicina)`. -/

/-- `isProcedure` from the `useDataNormalization` hook (same body as the
service's). -/
def isProcedure (tipo : Option String) : Bool :=
  let t := jsLower (jstr tipo)
  NormalizationService.procPatterns.any (fun p => containsSub p.data t.data)

/-- The alternatives of the regex `(consulta|cons|medicina)`. -/
def consultaPatterns : List String := [("consulta"), ("cons"), ("medicina")]

/-- `isConsulta` from the `useDataNormalization` hook:
`/(consulta|cons|medicina)/.test((tipo || '').toLowerCase())`. -/
def isConsulta (tipo : Option String) : Bool :=
  let t := jsLower (jstr tipo)
  consultaPatterns.any (fun p => containsSub p.data t.data)

end useDataNormalization

namespace SlugSpec

/-! Observations used to state the slug-shape properties of `slugify`. -/

/-- Is the first character a hyphen? -/
def headIsDash : List Char → Bool
  | [] => false
  | c :: _ => c = '-'

/-- Is the last character a hyphen? -/
def lastIsDash : List Char → Bool
  | [] => false
  | [c] => c = '-'
  | _ :: c :: cs => lastIsDash (c :: cs)

/-- Does the list contain two adjacent hyphens? -/
def hasDD : List Char → Bool
  | [] => false
  | [_] => false
  | a :: b :: rest => (a = '-' && b = '-') || hasDD (b :: rest)

end SlugSpec

namespace ApiSvc

/-!
Data model for the `ApiService` class of `src/lib/constants.ts`.

Backend payloads may be a bare array, an object wrapping the array in a
`data` field, some other (truthy) JSON value, plain text, or `null`; every
consumer normalizes the first two shapes and treats the rest as an empty
list.
-/

/-- A response payload as delivered by the backend (or `null` after a failed
request).  `other` stands for any further truthy JSON value. -/
inductive JData (β : Type) where
  | nullv
  | arr (l : List β)
  | wrapped (l : List β)
  | textv (t : String)
  | other
deriving DecidableEq

/-- `Array.isArray(d) ? d : (Array.isArray(d?.data) ? d.data : [])`. -/
def extractList {β : Type} : JData β → List β
  | .arr l => l
  | .wrapped l => l
  | _ => []

/-- JS truthiness of a payload (`null` and the empty text are falsy). -/
def dataTruthy {β : Type} : JData β → Bool
  | .nullv => false
  | .textv t => t ≠ ""
  | _ => true

/-- The `ApiResponse<T>` shape `{data, success, message?}`. -/
structure ApiResponse (β : Type) where
  data : JData β
  success : Bool
  message : Option String
deriving DecidableEq

/-- Outcome of one `fetch` round trip including body parsing — the effect
oracle for `request`.  `errJsonMsg status m`: non-2xx, JSON body parsed, its
`message` property rendered `m`; `errJsonNoMsg`: non-2xx, JSON body parsed
but without a `message` property; `errText status t`: non-2xx, JSON parse
failed, `text()` gave `t` (`""` when `text()` failed too); `abortErr`: an
`AbortError` (timeout or external cancellation); `thrownError`: any other
thrown `Error`; `thrownNonError`: a thrown non-`Error` value. -/
inductive FetchOutcome (β : Type) where
  | okResp (body : JData β)
  | errJsonMsg (status : Nat) (m : String)
  | errJsonNoMsg (status : Nat)
  | errText (status : Nat) (t : String)
  | abortErr
  | thrownError (msg : String)
  | thrownNonError
deriving DecidableEq

/-- `` `HTTP error ${response.status}` ``. -/
def httpErrorMessage (status : Nat) : String := ("HTTP error ") ++ toString status

/-- `ApiService.request`, modelled as a pure function of the cache state for
the request's key (`some d` = a fresh GET cache entry holding `d`) and of the
fetch outcome.  The write-back of fresh GET responses into the cache is not
modelled (no claim concerns it). -/
def request {β : Type} (cached : Option (JData β)) (outcome : FetchOutcome β) :
    ApiResponse β :=
  match cached with
  | some cachedData => { data := cachedData, success := true, message := none }
  | none =>
    match outcome with
    | .okResp body => { data := body, success := true, message := none }
    | .errJsonMsg status m =>
      { data := .nullv, success := false
        message := some (if m ≠ "" then m else httpErrorMessage status) }
    | .errJsonNoMsg status =>
      { data := .nullv, success := false, message := some (httpErrorMessage status) }
    | .errText status t =>
      { data := .nullv, success := false
        message := some (if t ≠ "" then t else httpErrorMessage status) }
    | .abortErr =>
      { data := .nullv, success := false, message := some ("Request timeout") }
    | .thrownError msg => { data := .nullv, success := false, message := some msg }
    | .thrownNonError =>
      { data := .nullv, success := false, message := some ("Unknown error") }

/-! Raw backend records.  Each field is `Option String`: `none` means the
property is absent or nullish, `some s` that it is present with `String(...)`
rendering `s`.  Upper-case source field names are camel-cased with a `U`
suffix (for example `cdPisoU` embeds the source field spelled `CD_PISO`). -/

/-- A raw schedule-slot record (`agnd-agenda` row). -/
structure AgendaRec where
  codigo_item_agendamiento : Option String := none
  id : Option String := none
  codigo : Option String := none
  codigo_prestador : Option String := none
  codigoPrestador : Option String := none
  cd_prestador : Option String := none
  prestadorId : Option String := none
  medicoId : Option String := none
  codigo_consultorio : Option String := none
  consultorio : Option String := none
  consultorioCodigo : Option String := none
  codigo_dia : Option String := none
  dia : Option String := none
  diaCodigo : Option String := none
  hora_inicio : Option String := none
  horaInicio : Option String := none
  hora : Option String := none
  hora_fin : Option String := none
  horaFin : Option String := none
  horarioFin : Option String := none
  tipo : Option String := none
deriving DecidableEq

/-- One element of a doctor's `especialidades` array: an object with the
usual alias fields, a primitive (kept as its `String()` image), or `null`.
An object none of whose id aliases is present stringifies to
`"[object Object]"` in the `?? esp` fallback. -/
inductive EspecialidadVal where
  | obj (especialidadId id codigo descripcion nombre : Option String)
  | prim (s : String)
  | nullv
deriving DecidableEq

/-- A raw doctor record. -/
structure MedicoRec where
  id : Option String := none
  codigo : Option String := none
  codigoPrestador : Option String := none
  codigo_prestador : Option String := none
  cd_prestador : Option String := none
  prestadorId : Option String := none
  medicoId : Option String := none
  nombres : Option String := none
  especialidades : Option (List EspecialidadVal) := none
deriving DecidableEq

/-- A raw room (consultorio) record with every alias field the orchestrator
probes. -/
structure ConsultorioRec where
  codigo : Option String := none
  id : Option String := none
  codigo_consultorio : Option String := none
  cdConsultorioU : Option String := none
  consultorio_id : Option String := none
  codigo_edificio : Option String := none
  edificio : Option String := none
  cdEdificioU : Option String := none
  codigoEdificio : Option String := none
  edificio_id : Option String := none
  edificioId : Option String := none
  piso : Option String := none
  cdPisoU : Option String := none
  codigoPiso : Option String := none
  piso_id : Option String := none
  pisoId : Option String := none
  codigo_piso : Option String := none
  des_piso : Option String := none
  desPisoU : Option String := none
  descripcion_piso : Option String := none
  descripcionPisoU : Option String := none
  descripcionPiso : Option String := none
  piso_descripcion : Option String := none
  des_consultorio : Option String := none
  desConsultorioU : Option String := none
  descripcion_consultorio : Option String := none
  descripcionConsultorioU : Option String := none
  descripcion : Option String := none
  nombre : Option String := none
  consultorio : Option String := none
  consultorio_nombre : Option String := none
deriving DecidableEq

/-- A raw building record. -/
structure EdificioRec where
  codigo : Option String := none
  id : Option String := none
  codigoEdificio : Option String := none
  cdEdificioU : Option String := none
  edificio_id : Option String := none
  descripcion_edificio : Option String := none
  descripcion : Option String := none
  nombre : Option String := none
  desEdificioU : Option String := none
  edificioNombre : Option String := none
  nombre_edificio : Option String := none
deriving DecidableEq

/-- A raw weekday-catalog record. -/
structure DiaRec where
  codigo : Option String := none
  id : Option String := none
  nombre : Option String := none
  descripcion : Option String := none
  name : Option String := none
deriving DecidableEq

/-- A raw floor-catalog record. -/
structure PisoRec where
  codigo_piso : Option String := none
  codigo : Option String := none
  id : Option String := none
  descripcion_piso : Option String := none
  descripcion : Option String := none
  nombre : Option String := none
  descripcionPiso : Option String := none
deriving DecidableEq

/-- The `ConsultorioNormalizado` shape produced by `normalizarConsultorio`. -/
structure ConsultorioNormalizado where
  codigo_consultorio : String
  codigo_edificio : Option String
  piso : Option String
  des_piso : Option String
  descripcion_consultorio : Option String
  __raw : ConsultorioRec
deriving DecidableEq

/-- `normalizarConsultorio` from `getAgendasDetalladasPorMedico`. -/
def normalizarConsultorio (c : ConsultorioRec) : ConsultorioNormalizado :=
  let codigo := jstr (c.codigo <|> c.id <|> c.codigo_consultorio <|> c.cdConsultorioU <|>
    c.consultorio_id)
  let edificio := jstr (c.codigo_edificio <|> c.edificio <|> c.cdEdificioU <|>
    c.codigoEdificio <|> c.edificio_id <|> c.edificioId)
  let piso := c.piso <|> c.cdPisoU <|> c.codigoPiso <|> c.piso_id <|> c.pisoId
  let des_piso := c.des_piso <|> c.desPisoU <|> c.descripcion_piso <|>
    c.descripcionPisoU <|> c.descripcionPiso <|> c.piso_descripcion
  let descripcion := c.des_consultorio <|> c.desConsultorioU <|> c.descripcion_consultorio <|>
    c.descripcionConsultorioU <|> c.descripcion <|> c.nombre <|> c.consultorio <|>
    c.consultorio_nombre
  { codigo_consultorio := codigo
    codigo_edificio := if edificio ≠ "" then some edificio else none
    piso := piso
    des_piso := des_piso.bind (fun s => if s ≠ "" then some s else none)
    descripcion_consultorio := descripcion.bind (fun s => if s ≠ "" then some s else none)
    __raw := c }

/-! JS `Map`s built with `set`/`get` are association lists; `set` overwrites,
so a plain `get` is a last-writer lookup, while the doctor map guards `set`
with `has` and is a first-writer lookup. -/

/-- First entry with the given key. -/
def lookupFirst {α : Type} (l : List (String × α)) (k : String) : Option α :=
  (l.find? (fun p => p.1 == k)).map (fun p => p.2)

/-- Last entry with the given key (JS `Map.set` overwrite semantics). -/
def lookupLast {α : Type} (l : List (String × α)) (k : String) : Option α :=
  lookupFirst l.reverse k

/-- Entries of `consultorioPorCodigo` in iteration order. -/
def consultorioEntries (consultoriosRaw : List ConsultorioRec) :
    List (String × ConsultorioNormalizado) :=
  consultoriosRaw.filterMap (fun c =>
    let norm := normalizarConsultorio c
    if norm.codigo_consultorio ≠ "" then some (norm.codigo_consultorio, norm) else none)

/-- Entries of `edificioPorCodigo`. -/
def edificioEntries (edificios : List EdificioRec) : List (String × EdificioRec) :=
  edificios.filterMap (fun e =>
    let codigo := jstr (e.codigo <|> e.id <|> e.codigoEdificio <|> e.cdEdificioU <|>
      e.edificio_id)
    if codigo ≠ "" then some (codigo, e) else none)

/-- Entries of `diaNombrePorCodigo`. -/
def diaEntries (diasCatalogo : List DiaRec) : List (String × String) :=
  diasCatalogo.filterMap (fun d =>
    let codigo := jstr (d.codigo <|> d.id)
    let nombre := jstr (d.nombre <|> d.descripcion <|> d.name)
    if codigo ≠ "" then some (codigo, nombre) else none)

/-- The id-alias candidates of one doctor record, stringified and with the
falsy ones dropped (iteration order of the source array). -/
def medicoCandidates (m : MedicoRec) : List String :=
  ([m.id, m.codigo, m.codigoPrestador, m.codigo_prestador, m.cd_prestador,
    m.prestadorId, m.medicoId].map jstr).filter (fun v => v ≠ "")

/-- Entries of `medicoPorId`; the guarded `set` makes the first writer win,
so lookups use `lookupFirst`. -/
def medicoEntries (medicos : List MedicoRec) : List (String × MedicoRec) :=
  medicos.flatMap (fun m => (medicoCandidates m).map (fun k => (k, m)))

/-- The building-code alias chain probed on a raw room record. -/
def edificioDeConsultorio (c : ConsultorioRec) : String :=
  jstr (c.codigo_edificio <|> c.edificio <|> c.cdEdificioU <|> c.codigoEdificio <|>
    c.edificio_id <|> c.edificioId)

/-- Deduplication keeping first occurrences (JS `Set` insertion order). -/
def dedupFirstAux : List String → List String → List String
  | [], _ => []
  | x :: xs, seen =>
    if seen.contains x then dedupFirstAux xs seen else x :: dedupFirstAux xs (x :: seen)

/-- Deduplication keeping first occurrences. -/
def dedupFirst (l : List String) : List String := dedupFirstAux l []

/-- `edificiosUnicos`: the distinct building codes referenced by rooms. -/
def edificiosUnicos (consultoriosRaw : List ConsultorioRec) : List String :=
  dedupFirst (consultoriosRaw.filterMap (fun c =>
    let e := edificioDeConsultorio c
    if e ≠ "" then some e else none))

/-- Entries of one building's floor map (`mapPisos`). -/
def pisoEntries (pisosArray : List PisoRec) : List (String × String) :=
  pisosArray.filterMap (fun p =>
    let codigoPiso := jstr (p.codigo_piso <|> p.codigo <|> p.id)
    let desc := jstr (p.descripcion_piso <|> p.descripcion <|> p.nombre <|> p.descripcionPiso)
    if codigoPiso ≠ "" then some (codigoPiso, desc) else none)

/-- `pisosPorEdificio`: one floor catalog per unique building, fetched through
the `pisosR` oracle and kept only when the call succeeded with a non-empty
truthy payload. -/
def pisosPorEdificio (pisosR : String → ApiResponse PisoRec)
    (consultoriosRaw : List ConsultorioRec) : List (String × List (String × String)) :=
  (edificiosUnicos consultoriosRaw).filterMap (fun edificioCodigo =>
    let pisosRes := pisosR edificioCodigo
    if pisosRes.success && dataTruthy pisosRes.data then
      let pisosArray := extractList pisosRes.data
      if pisosArray.length > 0 then some (edificioCodigo, pisoEntries pisosArray) else none
    else none)

/-- The number-to-day table of `decodeDiaNombre`. -/
def numberDayMap (u : String) : Option String :=
  if u = "1" then some ("Lunes") else if u = "2" then some ("Martes")
  else if u = "3" then some ("Miércoles") else if u = "4" then some ("Jueves")
  else if u = "5" then some ("Viernes") else if u = "6" then some ("Sábado")
  else if u = "7" then some ("Domingo") else none

/-- The letter-to-day table of `decodeDiaNombre`. -/
def letterDayMap (u : String) : Option String :=
  if u = "L" then some ("Lunes") else if u = "M" then some ("Martes")
  else if u = "X" then some ("Miércoles") else if u = "J" then some ("Jueves")
  else if u = "V" then some ("Viernes") else if u = "S" then some ("Sábado")
  else if u = "D" then some ("Domingo") else none

/-- The full-Spanish-name table of `decodeDiaNombre`. -/
def fullEsDayMap (u : String) : Option String :=
  if u = "LUNES" then some ("Lunes") else if u = "MARTES" then some ("Martes")
  else if u = "MIERCOLES" then some ("Miércoles")
  else if u = "MIÉRCOLES" then some ("Miércoles")
  else if u = "JUEVES" then some ("Jueves") else if u = "VIERNES" then some ("Viernes")
  else if u = "SABADO" then some ("Sábado") else if u = "SÁBADO" then some ("Sábado")
  else if u = "DOMINGO" then some ("Domingo") else none

/-- The fallback chain of `decodeDiaNombre` after the catalog miss. -/
def decodeDiaFallback (code : String) : String :=
  let upper := jsUpper code
  match numberDayMap upper with
  | some d => d
  | none =>
    match letterDayMap upper with
    | some d => d
    | none =>
      match fullEsDayMap upper with
      | some d => d
      | none => code

/-- `decodeDiaNombre`: catalog first (falsy catalog values fall through),
then numeric, single-letter and full-name tables, else the code itself. -/
def decodeDiaNombre (diaNombrePorCodigo : List (String × String))
    (codigoDia : Option String) : String :=
  let code := jsTrim (jstr codigoDia)
  if code = "" then ""
  else
    match lookupLast diaNombrePorCodigo code with
    | some fromCatalog => if fromCatalog ≠ "" then fromCatalog else decodeDiaFallback code
    | none => decodeDiaFallback code

/-- `decodeTipo`. -/
def decodeTipo (t : Option String) : String :=
  let v := jsUpper (jstr t)
  if v = "C" then ("Consulta") else if v = "P" then ("Procedimiento") else v

/-- The `codigo_item_agendamiento ?? id ?? codigo` chain, stringified and
trimmed — the slot's item-agendamiento code. -/
def resolveItemCode (a : AgendaRec) : String :=
  jsTrim (jstr (a.codigo_item_agendamiento <|> a.id <|> a.codigo))

/-- The regex `^\d+$` applied to a string already known non-empty. -/
def isAllDigits (s : String) : Bool := s.data.all isDigitC

/-- The specialty filter of step 5 (lines 501–517 of `constants.ts`). -/
def filtrarPorEspecialidad (wantedSpecialtyIds : List String)
    (agendas : List AgendaRec) : List AgendaRec :=
  agendas.filter (fun a =>
    let codigoItemAgendamiento := resolveItemCode a
    if codigoItemAgendamiento ≠ "" && isAllDigits codigoItemAgendamiento then
      wantedSpecialtyIds.contains codigoItemAgendamiento
    else false)

/-- `String(esp?.especialidadId ?? esp?.id ?? esp?.codigo ?? esp ?? '')`. -/
def espId : EspecialidadVal → String
  | .obj especialidadId id codigo _ _ =>
    match especialidadId <|> id <|> codigo with
    | some v => v
    | none => "[object Object]"
  | .prim s => s
  | .nullv => ""

/-- The repeated assignment pattern on a found specialty entry: objects set
`String(m.descripcion ?? m.nombre ?? '')`, truthy primitives set their own
image, anything else leaves the variable untouched (`none`). -/
def espAssign : EspecialidadVal → Option String
  | .obj _ _ _ descripcion nombre => some (jstr (descripcion <|> nombre))
  | .prim s => if s ≠ "" then some s else none
  | .nullv => none

/-- `especialidades.find(esp => espId(esp) === code)`. -/
def findEspecialidad (especialidades : List EspecialidadVal) (code : String) :
    Option EspecialidadVal :=
  especialidades.find? (fun esp => espId esp == code)

/-- JS falsiness of the `especialidad` variable (`undefined` or `""`). -/
def isFalsyOpt (o : Option String) : Bool :=
  match o with
  | none => true
  | some s => s = ""

/-- The provider-id alias chain of the defensive re-check (line 522). -/
def resolvePrestadorId (a : AgendaRec) : String :=
  jstr (a.codigo_prestador <|> a.codigoPrestador <|> a.cd_prestador <|>
    a.prestadorId <|> a.medicoId)

/-- The lookup maps built by steps 3–4 of the orchestrator. -/
structure OrchCtx where
  consultorioPorCodigo : List (String × ConsultorioNormalizado)
  edificioPorCodigo : List (String × EdificioRec)
  pisosPorEd : List (String × List (String × String))
  diaNombrePorCodigo : List (String × String)
  medicoPorId : List (String × MedicoRec)

/-- The `AgendaDetallada` view-model record emitted per retained slot. -/
structure AgendaDetallada where
  codigo_item_agendamiento : Option String
  codigo_prestador : Option String
  codigo_dia : Option String
  hora_inicio : Option String
  hora_fin : Option String
  tipo : Option String
  codigo_consultorio : String
  especialidad : Option String
  medico : String
  diaNombre : String
  horaInicioHHmm : String
  horaFinHHmm : String
  consultorioDescripcion : String
  consultorioCodigo : Option String
  edificioDescripcion : String
  tipoTexto : String
  piso : String
  pisoDescripcion : String
  buildingCode : String
deriving DecidableEq

/-- The per-slot body of the `agendas.map(...)` of lines 520–707: `none`
models the `null` returned when the slot's provider does not match (the
`.filter(Boolean)` then drops it). -/
def buildDetallada (ctx : OrchCtx) (providerCodeToUse : String)
    (especialidadId : Option (List String)) (a : AgendaRec) : Option AgendaDetallada :=
  let prestadorId := resolvePrestadorId a
  if prestadorId ≠ providerCodeToUse then none
  else
    let codigoConsultorio := jstr (a.codigo_consultorio <|> a.consultorio <|> a.consultorioCodigo)
    let consultorio := lookupLast ctx.consultorioPorCodigo codigoConsultorio
    let buildingCode := jstr (consultorio.bind (fun c => c.codigo_edificio))
    let edificioRaw := if buildingCode ≠ "" then lookupLast ctx.edificioPorCodigo buildingCode else none
    let edificioDescripcion :=
      match edificioRaw with
      | some e => jstr (e.descripcion_edificio <|> e.descripcion <|> e.nombre <|>
          e.desEdificioU <|> e.edificioNombre <|> e.nombre_edificio)
      | none => ""
    let pisoCodigo := (consultorio.bind (fun c => c.piso)) <|>
      (consultorio.bind (fun c => c.__raw.cdPisoU)) <|>
      (consultorio.bind (fun c => c.__raw.codigo_piso))
    let pisoCatalogo : Option String :=
      if buildingCode ≠ "" && pisoCodigo.isSome then
        match lookupLast ctx.pisosPorEd buildingCode with
        | some mapPisos =>
          match lookupLast mapPisos (jstr pisoCodigo) with
          | some descripcionDelCatalogo =>
            if descripcionDelCatalogo ≠ "" then some descripcionDelCatalogo else none
          | none => none
        | none => none
      else none
    let pf1 := match pisoCatalogo with | some d => d | none => ""
    let pf2 :=
      if pf1 = "" then
        match consultorio.bind (fun c => c.des_piso) with
        | some d => if d ≠ "" then d else pf1
        | none => pf1
      else pf1
    let rawPisoDesc := (consultorio.bind (fun c => c.__raw.desPisoU)) <|>
      (consultorio.bind (fun c => c.__raw.descripcion_piso))
    let pf3 :=
      if pf2 = "" then
        match rawPisoDesc with
        | some d => if d ≠ "" then d else pf2
        | none => pf2
      else pf2
    let pisoFormateado :=
      if pf3 = "" && pisoCodigo.isSome then ("Piso ") ++ jstr pisoCodigo else pf3
    let medicoRaw := lookupFirst ctx.medicoPorId prestadorId
    let medicoNombre := jstr (medicoRaw.bind (fun m => m.nombres))
    let codigoItemAgendamiento := resolveItemCode a
    let especialidades :=
      match medicoRaw with
      | some m => m.especialidades.getD []
      | none => []
    let esp1 : Option String :=
      match especialidadId with
      | some wantedSpecialtyIds =>
        if codigoItemAgendamiento ≠ "" && wantedSpecialtyIds.contains codigoItemAgendamiento then
          match findEspecialidad especialidades codigoItemAgendamiento with
          | some especialidadEncontrada => espAssign especialidadEncontrada
          | none => none
        else none
      | none => none
    let esp2 : Option String :=
      if isFalsyOpt esp1 then
        if codigoItemAgendamiento ≠ "" &&
            (match medicoRaw with | some m => m.especialidades.isSome | none => false) then
          match findEspecialidad especialidades codigoItemAgendamiento with
          | some m => match espAssign m with | some v => some v | none => esp1
          | none => esp1
        else esp1
      else esp1
    let esp3 : Option String :=
      if isFalsyOpt esp2 then
        if (match medicoRaw with | some m => m.especialidades.isSome | none => false) &&
            especialidades.length > 0 then
          match especialidades with
          | [] => esp2
          | primera :: _ => match espAssign primera with | some v => some v | none => esp2
        else esp2
      else esp2
    let diaCodigo := jstr (a.codigo_dia <|> a.dia <|> a.diaCodigo)
    let diaNombre := decodeDiaNombre ctx.diaNombrePorCodigo (some diaCodigo)
    let horaInicio := toHHmm (a.hora_inicio <|> a.horaInicio <|> a.hora)
    let horaFin := toHHmm (a.hora_fin <|> a.horaFin <|> a.horarioFin)
    some {
      codigo_item_agendamiento := a.codigo_item_agendamiento <|> a.id <|> a.codigo
      codigo_prestador := a.codigo_prestador
      codigo_dia := a.codigo_dia
      hora_inicio := a.hora_inicio
      hora_fin := a.hora_fin
      tipo := a.tipo
      codigo_consultorio := (a.codigo_consultorio).getD codigoConsultorio
      especialidad := esp3
      medico := medicoNombre
      diaNombre := diaNombre
      horaInicioHHmm := horaInicio
      horaFinHHmm := horaFin
      consultorioDescripcion :=
        match consultorio with
        | some c =>
          match c.descripcion_consultorio with
          | some d => if d ≠ "" then d else jstr c.__raw.desConsultorioU
          | none => jstr c.__raw.desConsultorioU
        | none => ""
      consultorioCodigo := consultorio.map (fun c => c.codigo_consultorio)
      edificioDescripcion := edificioDescripcion
      tipoTexto := decodeTipo a.tipo
      piso := pisoFormateado
      pisoDescripcion := pisoFormateado
      buildingCode := buildingCode }

/-- The remote-call outcomes one orchestration run can observe: the two
parameter styles of the slot query, their single retry, the four catalog
fetches, and the per-building floor fetches. -/
structure Env where
  agendaFirst : ApiResponse AgendaRec
  agendaSecond : ApiResponse AgendaRec
  agendaFirstRetry : ApiResponse AgendaRec
  agendaSecondRetry : ApiResponse AgendaRec
  medicosR : ApiResponse MedicoRec
  consultoriosR : ApiResponse ConsultorioRec
  edificiosR : ApiResponse EdificioRec
  diasR : ApiResponse DiaRec
  pisosR : String → ApiResponse PisoRec

/-- `getAgendasPorMedico`: try the `codigo_prestador` query, fall back to the
`cd_prestador` query, and on a double miss keep the more informative result. -/
def getAgendasPorMedico (first second : ApiResponse AgendaRec) : ApiResponse AgendaRec :=
  let listFirst := extractList first.data
  if first.success && listFirst.length > 0 then first
  else
    let listSecond := extractList second.data
    if listSecond.length > 0 then second
    else if first.success then first else second

/-- The slot list after the single explicit retry of step 2 (lines 275–280);
the dead `agendas = []` reassignment of lines 490–492 is the identity here. -/
def agendasCrudas (env : Env) : List AgendaRec :=
  let agendasFromProv :=
    extractList (getAgendasPorMedico env.agendaFirst env.agendaSecond).data
  if agendasFromProv.length = 0 then
    extractList (getAgendasPorMedico env.agendaFirstRetry env.agendaSecondRetry).data
  else agendasFromProv

/-- The slot list after the optional specialty filter (step 5).
`especialidadId = some ids` models both the scalar and the array form of the
parameter, already normalized to a string list as lines 497–499 do. -/
def agendasSeleccionadas (env : Env) (especialidadId : Option (List String)) :
    List AgendaRec :=
  let agendas := agendasCrudas env
  match especialidadId with
  | some wantedSpecialtyIds =>
    if agendas.length > 0 then filtrarPorEspecialidad wantedSpecialtyIds agendas else agendas
  | none => agendas

/-- The lookup maps of one orchestration run. -/
def orchCtx (env : Env) : OrchCtx :=
  let consultoriosRaw := extractList env.consultoriosR.data
  { consultorioPorCodigo := consultorioEntries consultoriosRaw
    edificioPorCodigo := edificioEntries (extractList env.edificiosR.data)
    pisosPorEd := pisosPorEdificio env.pisosR consultoriosRaw
    diaNombrePorCodigo := diaEntries (extractList env.diasR.data)
    medicoPorId := medicoEntries (extractList env.medicosR.data) }

/-- The orchestrator's return shape `{data, success, message?}`. -/
structure DetalladasResult where
  data : List AgendaDetallada
  success : Bool
  message : Option String
deriving DecidableEq

/-- `[...].find(r => !r.success)?.message` over `(success, message)` pairs. -/
def firstFailMessage (results : List (Bool × Option String)) : Option String :=
  (results.find? (fun r => !r.1)).bind (fun r => r.2)

/-- The `(success, message)` pair of a response. -/
def flagOf {β : Type} (r : ApiResponse β) : Bool × Option String := (r.success, r.message)

/-- `getAgendasDetalladasPorMedico`: the full orchestration pipeline.
`codigoPrestador` is already the `String(...)` image of the caller's value. -/
def getAgendasDetalladasPorMedico (env : Env) (codigoPrestador : String)
    (especialidadId : Option (List String)) : DetalladasResult :=
  let agendasRes := getAgendasPorMedico env.agendaFirst env.agendaSecond
  let providerCodeToUse := codigoPrestador
  let detalladas := (agendasSeleccionadas env especialidadId).filterMap
    (buildDetallada (orchCtx env) providerCodeToUse especialidadId)
  { data := detalladas
    success := agendasRes.success && env.medicosR.success && env.consultoriosR.success &&
      env.edificiosR.success && env.diasR.success
    message := firstFailMessage [flagOf agendasRes, flagOf env.medicosR,
      flagOf env.consultoriosR, flagOf env.edificiosR, flagOf env.diasR] }

end ApiSvc

namespace Auth

/-! The auth client of `src/lib/auth.ts`: two module-level token strings and
a presence-based `getAccessToken`.  `getCredentials` cannot throw because
both credentials have non-empty defaults, so it is not modelled. -/

/-- The `{accessToken, refreshToken}` pair returned by `login`. -/
structure AuthTokens where
  accessToken : String
  refreshToken : String
deriving DecidableEq

/-- The module-level mutable state (both empty at startup). -/
structure AuthState where
  accessToken : String
  refreshToken : String
deriving DecidableEq

/-- Outcome of the axios login POST — the effect oracle for `login`.
`resp` carries the `access_token`/`refresh_token` fields of the response
body; `axiosError` an axios failure with optional `response.data.message`
and the error's own `message`; `jsError` any other thrown `Error`;
`otherThrown` a thrown non-`Error` value. -/
inductive LoginOutcome where
  | resp (access_token refresh_token : Option String)
  | axiosError (respMessage : Option String) (errMessage : String)
  | jsError (message : String)
  | otherThrown
deriving DecidableEq

/-- `login` composed with `handleAuthError` and the re-throw of its catch
block: validates that both tokens are truthy, otherwise fails with the
normalized message. -/
def login (outcome : LoginOutcome) : Except String AuthTokens :=
  match outcome with
  | .resp access_token refresh_token =>
    match access_token, refresh_token with
    | some a, some r =>
      if a ≠ "" && r ≠ "" then Except.ok { accessToken := a, refreshToken := r }
      else Except.error ("Respuesta de autenticación inválida")
    | _, _ => Except.error ("Respuesta de autenticación inválida")
  | .axiosError respMessage errMessage =>
    Except.error (match respMessage with
      | some m =>
        if m ≠ "" then m
        else if errMessage ≠ "" then errMessage else ("Error de autenticación")
      | none => if errMessage ≠ "" then errMessage else ("Error de autenticación"))
  | .jsError message => Except.error message
  | .otherThrown => Except.error ("Error desconocido de autenticación")

/-- `getAccessToken` as a state transformer: returns the cached token when it
is truthy, otherwise logs in, stores both tokens and returns the fresh one.
A login failure propagates and leaves the state unchanged. -/
def getAccessToken (st : AuthState) (outcome : LoginOutcome) :
    Except String String × AuthState :=
  if st.accessToken ≠ "" then (Except.ok st.accessToken, st)
  else
    match login outcome with
    | Except.ok tokens =>
      (Except.ok tokens.accessToken,
        { accessToken := tokens.accessToken, refreshToken := tokens.refreshToken })
    | Except.error m => (Except.error m, st)

end Auth

namespace Fixtures

/-! Concrete response fixtures used by the witness theorems below. -/

open ApiSvc

/-- A successful response with a `null` payload. -/
def okNull {β : Type} : ApiResponse β := { data := .nullv, success := true, message := none }

/-- A failed response with a `null` payload and the given message. -/
def failR {β : Type} (m : String) : ApiResponse β :=
  { data := .nullv, success := false, message := some m }

/-- A slot belonging to provider 10. -/
def a0 : AgendaRec := { codigo_prestador := some ("10") }

/-- An environment whose slot query returns exactly `a0` and whose catalogs
are all empty. -/
def env0 : Env :=
  { agendaFirst := { data := .arr [a0], success := true, message := none }
    agendaSecond := okNull
    agendaFirstRetry := okNull
    agendaSecondRetry := okNull
    medicosR := okNull
    consultoriosR := okNull
    edificiosR := okNull
    diasR := okNull
    pisosR := fun _ => okNull }

/-- The view-model record the orchestrator emits for `a0` in `env0`. -/
def d0 : AgendaDetallada :=
  { codigo_item_agendamiento := none
    codigo_prestador := some ("10")
    codigo_dia := none
    hora_inicio := none
    hora_fin := none
    tipo := none
    codigo_consultorio := ""
    especialidad := none
    medico := ""
    diaNombre := ""
    horaInicioHHmm := ""
    horaFinHHmm := ""
    consultorioDescripcion := ""
    consultorioCodigo := none
    edificioDescripcion := ""
    tipoTexto := ""
    piso := ""
    pisoDescripcion := ""
    buildingCode := "" }

/-- A slot of provider 10 carrying item-agendamiento code 12. -/
def a1 : AgendaRec := { codigo_item_agendamiento := some ("12"), codigo_prestador := some ("10") }

/-- `env0` with `a1` as the only slot. -/
def env1 : Env :=
  { env0 with agendaFirst := { data := .arr [a1], success := true, message := none } }

/-- The view-model record the orchestrator emits for `a1` in `env1`. -/
def d1 : AgendaDetallada := { d0 with codigo_item_agendamiento := some ("12") }

/-- `env0` with both slot queries failing. -/
def envAgFail : Env :=
  { env0 with
    agendaFirst := failR ("agenda uno")
    agendaSecond := failR ("agenda dos") }

/-- `env0` with a failing doctor-catalog call. -/
def envMedFail : Env := { env0 with medicosR := failR ("medicos") }

/-- `env0` with a failing room-catalog call. -/
def envConsFail : Env := { env0 with consultoriosR := failR ("consultorios") }

/-- `env0` with a failing building-catalog call. -/
def envEdifFail : Env := { env0 with edificiosR := failR ("edificios") }

/-- `env0` with a failing day-catalog call. -/
def envDiasFail : Env := { env0 with diasR := failR ("dias") }

end Fixtures

/-! ## Helper lemmas -/

/-- `startsWithL` tests for a prefix. -/
theorem startsWithL_iff (h n : List Char) :
    startsWithL h n = true ↔ ∃ t, h = n ++ t := by
  induction n generalizing h with
  | nil => simp [startsWithL]
  | cons x xs ih =>
    cases h with
    | nil => simp [startsWithL]
    | cons y ys => simp [startsWithL, ih]

/-- `containsSub` tests for a contiguous substring. -/
theorem containsSub_iff (n h : List Char) :
    containsSub n h = true ↔ ∃ s u, h = s ++ n ++ u := by
  induction h with
  | nil =>
    simp only [containsSub, startsWithL_iff]
    constructor
    · rintro ⟨t, ht⟩
      exact ⟨[], t, ht⟩
    · rintro ⟨s, u, hh⟩
      cases s with
      | nil => exact ⟨u, hh⟩
      | cons a as => simp at hh
  | cons c hs ih =>
    simp only [containsSub, Bool.or_eq_true, startsWithL_iff, ih]
    constructor
    · rintro (⟨t, ht⟩ | ⟨s, u, hh⟩)
      · exact ⟨[], t, by simpa using ht⟩
      · exact ⟨c :: s, u, by simp [hh]⟩
    · rintro ⟨s, u, hh⟩
      cases s with
      | nil => exact Or.inl ⟨u, by simpa using hh⟩
      | cons a as =>
        simp only [List.cons_append, List.cons.injEq] at hh
        exact Or.inr ⟨as, u, hh.2⟩

/-- Strings accepted by `isHHmm` have five characters. -/
theorem isHHmm_length (l : List Char) (h : ApiSvc.isHHmm l = true) : l.length = 5 := by
  unfold ApiSvc.isHHmm at h
  split at h
  · simp_all
  · exact absurd h (by simp)

/-- Strings accepted by `isHHmmSS` have eight characters. -/
theorem isHHmmSS_length (l : List Char) (h : ApiSvc.isHHmmSS l = true) : l.length = 8 := by
  unfold ApiSvc.isHHmmSS at h
  split at h
  · simp_all
  · exact absurd h (by simp)

/-- Strings accepted by `isNum34` have three or four characters. -/
theorem isNum34_length (l : List Char) (h : ApiSvc.isNum34 l = true) :
    l.length = 3 ∨ l.length = 4 := by
  unfold ApiSvc.isNum34 at h
  simp only [Bool.and_eq_true, Bool.or_eq_true, decide_eq_true_eq] at h
  exact h.1

/-- A list with positive length is not empty. -/
theorem isEmpty_false_of_length_pos (l : List Char) (h : 0 < l.length) :
    l.isEmpty = false := by
  cases l with
  | nil => simp at h
  | cons c cs => rfl

/-! ## C2 — `toHHmm` -/

/-- C2 counterexample: the input `"1:30"` matches none of the three claimed
formats (`HH:mm`, `HH:mm:ss`, 3–4-digit numeric), yet `toHHmm` does not
return it unchanged — the digit-extraction fallback turns it into
`"01:30"`. -/
theorem C2_toHHmm_cex :
    ApiSvc.isHHmm ("1:30").data = false ∧ ApiSvc.isHHmmSS ("1:30").data = false ∧
    ApiSvc.isNum34 ("1:30").data = false ∧
    ApiSvc.toHHmm (some ("1:30")) = ("01:30") ∧ ("1:30" : String) ≠ ("01:30") := by
  decide

/-- C2 (amended): `toHHmm` first trims the input; a trimmed `HH:mm` is
returned as is, a trimmed `HH:mm:ss` loses its seconds, a trimmed 3–4-digit
numeric string is zero-padded and split 2+2; otherwise, when the digits
remaining after deleting every non-digit of the trimmed input number 3 or 4,
those digits are zero-padded and split 2+2, and only any other input is
returned (trimmed) unchanged.  Nullish and all-whitespace inputs give `""`,
and the claimed examples hold. -/
theorem C2_toHHmm_amended :
    (ApiSvc.toHHmm none = "" ∧ ApiSvc.toHHmm (some ("")) = "" ∧
     ApiSvc.toHHmm (some ("830")) = ("08:30") ∧
     ApiSvc.toHHmm (some ("13:30:00")) = ("13:30")) ∧
    (∀ v : String,
      (ApiSvc.isHHmm (jsTrimL v.data) = true →
        ApiSvc.toHHmm (some v) = ⟨jsTrimL v.data⟩) ∧
      (ApiSvc.isHHmmSS (jsTrimL v.data) = true →
        ApiSvc.toHHmm (some v) = ⟨(jsTrimL v.data).take 5⟩) ∧
      (ApiSvc.isNum34 (jsTrimL v.data) = true →
        ApiSvc.toHHmm (some v) = ⟨ApiSvc.splitColon (ApiSvc.pad4 (jsTrimL v.data))⟩) ∧
      (ApiSvc.isHHmm (jsTrimL v.data) = false → ApiSvc.isHHmmSS (jsTrimL v.data) = false →
        ApiSvc.isNum34 (jsTrimL v.data) = false →
        3 ≤ ((jsTrimL v.data).filter isDigitC).length →
        ((jsTrimL v.data).filter isDigitC).length ≤ 4 →
        ApiSvc.toHHmm (some v) =
          ⟨ApiSvc.splitColon (ApiSvc.pad4 ((jsTrimL v.data).filter isDigitC))⟩) ∧
      (ApiSvc.isHHmm (jsTrimL v.data) = false → ApiSvc.isHHmmSS (jsTrimL v.data) = false →
        ApiSvc.isNum34 (jsTrimL v.data) = false →
        ¬(3 ≤ ((jsTrimL v.data).filter isDigitC).length ∧
          ((jsTrimL v.data).filter isDigitC).length ≤ 4) →
        ApiSvc.toHHmm (some v) = ⟨jsTrimL v.data⟩)) := by
  refine ⟨by decide, fun v => ?_⟩
  refine ⟨?_, ?_, ?_, ?_, ?_⟩
  · intro h1
    have hlen := isHHmm_length _ h1
    have hne : (jsTrimL v.data).isEmpty = false :=
      isEmpty_false_of_length_pos _ (by omega)
    simp [ApiSvc.toHHmm, hne, h1]
  · intro h2
    have hlen := isHHmmSS_length _ h2
    have hne : (jsTrimL v.data).isEmpty = false :=
      isEmpty_false_of_length_pos _ (by omega)
    have h1 : ApiSvc.isHHmm (jsTrimL v.data) = false := by
      cases hh : ApiSvc.isHHmm (jsTrimL v.data) with
      | false => rfl
      | true => have := isHHmm_length _ hh; omega
    simp [ApiSvc.toHHmm, hne, h1, h2]
  · intro h3
    have hlen := isNum34_length _ h3
    have hne : (jsTrimL v.data).isEmpty = false :=
      isEmpty_false_of_length_pos _ (by omega)
    have h1 : ApiSvc.isHHmm (jsTrimL v.data) = false := by
      cases hh : ApiSvc.isHHmm (jsTrimL v.data) with
      | false => rfl
      | true => have := isHHmm_length _ hh; omega
    have h2 : ApiSvc.isHHmmSS (jsTrimL v.data) = false := by
      cases hh : ApiSvc.isHHmmSS (jsTrimL v.data) with
      | false => rfl
      | true => have := isHHmmSS_length _ hh; omega
    simp [ApiSvc.toHHmm, hne, h1, h2, h3]
  · intro h1 h2 h3 hge hle
    have hfl := List.length_filter_le isDigitC (jsTrimL v.data)
    have hne : (jsTrimL v.data).isEmpty = false :=
      isEmpty_false_of_length_pos _ (by omega)
    simp [ApiSvc.toHHmm, hne, h1, h2, h3, hge, hle]
  · intro h1 h2 h3 hnot
    cases he : jsTrimL v.data with
    | nil => simp [ApiSvc.toHHmm, he]
    | cons c cs =>
      have hne : (jsTrimL v.data).isEmpty = false := by rw [he]; rfl
      have hcond : ¬(3 ≤ ((jsTrimL v.data).filter isDigitC).length ∧
          ((jsTrimL v.data).filter isDigitC).length ≤ 4) := hnot
      simp only [ApiSvc.toHHmm, hne, h1, h2, h3, Bool.false_eq_true, if_false,
        Bool.and_eq_true, decide_eq_true_eq]
      rw [if_neg (by simpa using hcond), he]

/-- C2 witness: the amended theorem applied to `"8.30"`, which falls in the
digit-extraction branch. -/
theorem C2_toHHmm_amended_witness :
    ApiSvc.toHHmm (some ("8.30")) =
      ⟨ApiSvc.splitColon (ApiSvc.pad4 (((jsTrimL ("8.30").data)).filter isDigitC))⟩ :=
  ((C2_toHHmm_amended.2 ("8.30")).2.2.2.1)
    (by decide) (by decide) (by decide) (by decide) (by decide)

/-! ## C4 — `isProcedure` / `isConsulta` -/

/-- C4 counterexample: in the `useDataNormalization` hook the two
classifiers are not complements — on the input `"X"`, which matches neither
regex, both predicates are false. -/
theorem C4_classifiers_cex :
    useDataNormalization.isProcedure (some ("X")) = false ∧
    useDataNormalization.isConsulta (some ("X")) = false := by
  decide

/-- C4 (amended): in the normalization service module, `isConsulta` is the
exact complement of `isProcedure`, and `isProcedure` holds iff the lowercased
input contains one of `proced`, `qx`, `quir`, `cirug`.  The
`useDataNormalization` hook shares the same `isProcedure`, but its
`isConsulta` instead tests the positive regex `(consulta|cons|medicina)`, so
the hook's pair can be simultaneously false and the complement law only
holds for the service module. -/
theorem C4_classifiers_amended :
    (∀ t : Option String,
      NormalizationService.isConsulta t = !NormalizationService.isProcedure t) ∧
    (∀ t : Option String,
      NormalizationService.isProcedure t = true ↔
        ∃ p ∈ NormalizationService.procPatterns, ∃ s u : List Char,
          (jsLower (jstr t)).data = s ++ p.data ++ u) ∧
    (∀ t : Option String,
      useDataNormalization.isProcedure t = NormalizationService.isProcedure t) ∧
    (∀ t : Option String,
      useDataNormalization.isConsulta t = true ↔
        ∃ p ∈ useDataNormalization.consultaPatterns, ∃ s u : List Char,
          (jsLower (jstr t)).data = s ++ p.data ++ u) := by
  refine ⟨fun t => rfl, fun t => ?_, fun t => rfl, fun t => ?_⟩
  · simp only [NormalizationService.isProcedure, List.any_eq_true, containsSub_iff]
  · simp only [useDataNormalization.isConsulta, List.any_eq_true, containsSub_iff]

/-! ## C5 — `getBuildingDisplayName` -/

/-- C5 counterexample: an empty building code yields `"No especificado"`
rather than passing through verbatim, and a padded code is trimmed rather
than returned verbatim. -/
theorem C5_building_cex :
    NormalizationService.getBuildingDisplayName (some ("")) = ("No especificado") ∧
    ("No especificado" : String) ≠ ("") ∧
    NormalizationService.getBuildingDisplayName (some (" 9 ")) = ("9") ∧
    (" 9 " : String) ≠ ("9") := by
  decide

/-- C5 (amended): `getBuildingDisplayName` returns `"No especificado"` for
`undefined` and for every falsy code (in particular `""`); any other code is
first trimmed, a trimmed `"1"`/`"2"` becomes `"Principal"`/`"Torre Bless"`,
and every other code is returned as its trimmed form (no guessed name). -/
theorem C5_building_amended :
    NormalizationService.getBuildingDisplayName none = ("No especificado") ∧
    NormalizationService.getBuildingDisplayName (some ("")) = ("No especificado") ∧
    NormalizationService.getBuildingDisplayName (some ("1")) = ("Principal") ∧
    NormalizationService.getBuildingDisplayName (some ("2")) = ("Torre Bless") ∧
    NormalizationService.getBuildingDisplayName (some ("9")) = ("9") ∧
    (∀ s : String, s ≠ "" → jsTrim s ≠ "1" → jsTrim s ≠ "2" →
      NormalizationService.getBuildingDisplayName (some s) = jsTrim s) := by
  refine ⟨by decide, by decide, by decide, by decide, by decide, fun s h0 h1 h2 => ?_⟩
  simp [NormalizationService.getBuildingDisplayName, h0, h1, h2]

/-- C5 witness: the generic pass-through clause of the amended theorem
applied to the concrete code `"9x"`. -/
theorem C5_building_amended_witness :
    NormalizationService.getBuildingDisplayName (some ("9x")) = jsTrim ("9x") :=
  C5_building_amended.2.2.2.2.2 ("9x") (by decide) (by decide) (by decide)

/-! ## C7 — `ApiService.request` failure normalization -/

/-- C7: on a cache miss, every failure outcome of the underlying fetch is
normalized to a structured `{success:false, message}` result instead of a
propagated exception: a non-2xx response's message is the JSON body's truthy
`message` field, else the truthy raw text, else the HTTP-status-derived
message; an abort (timeout or external cancellation) yields
`"Request timeout"`; any other thrown `Error` yields its own message, and a
thrown non-`Error` yields `"Unknown error"`. -/
theorem C7_request_failures (β : Type) :
    (∀ status m, @ApiSvc.request β none (.errJsonMsg status m) =
      { data := .nullv, success := false
        message := some (if m ≠ "" then m else ApiSvc.httpErrorMessage status) }) ∧
    (∀ status, @ApiSvc.request β none (.errJsonNoMsg status) =
      { data := .nullv, success := false
        message := some (ApiSvc.httpErrorMessage status) }) ∧
    (∀ status t, @ApiSvc.request β none (.errText status t) =
      { data := .nullv, success := false
        message := some (if t ≠ "" then t else ApiSvc.httpErrorMessage status) }) ∧
    (@ApiSvc.request β none .abortErr =
      { data := .nullv, success := false, message := some ("Request timeout") }) ∧
    (∀ m, @ApiSvc.request β none (.thrownError m) =
      { data := .nullv, success := false, message := some m }) ∧
    (@ApiSvc.request β none .thrownNonError =
      { data := .nullv, success := false, message := some ("Unknown error") }) ∧
    (∀ o : ApiSvc.FetchOutcome β, (@ApiSvc.request β none o).success = false ∨
      (@ApiSvc.request β none o).message = none) := by
  refine ⟨fun _ _ => rfl, fun _ => rfl, fun _ _ => rfl, rfl, fun _ => rfl, rfl, fun o => ?_⟩
  cases o <;> simp [ApiSvc.request]

/-! ## C9 — `getAccessToken` -/

/-- C9: `getAccessToken` is purely presence-based.  With a truthy cached
access token it returns that token and leaves the state unchanged, whatever
the login oracle would do (so no login call and no expiry validation can
influence the result); with an empty cached token it runs `login`, stores
both returned tokens in the module state and returns the fresh access
token. -/
theorem C9_getAccessToken (st : Auth.AuthState) (o : Auth.LoginOutcome) :
    (st.accessToken ≠ "" → Auth.getAccessToken st o = (Except.ok st.accessToken, st)) ∧
    (∀ tokens, st.accessToken = "" → Auth.login o = Except.ok tokens →
      Auth.getAccessToken st o =
        (Except.ok tokens.accessToken,
          { accessToken := tokens.accessToken, refreshToken := tokens.refreshToken })) := by
  constructor
  · intro h
    simp [Auth.getAccessToken, h]
  · intro tokens h hl
    simp [Auth.getAccessToken, h, hl]

/-- C9 witness: a cached token is returned untouched even when the login
oracle would fail, and an empty cache triggers the login path, storing both
fresh tokens. -/
theorem C9_getAccessToken_witness :
    Auth.getAccessToken ⟨("tok"), ("ref")⟩ Auth.LoginOutcome.otherThrown =
      (Except.ok ("tok"), ⟨("tok"), ("ref")⟩) ∧
    Auth.getAccessToken ⟨(""), ("")⟩ (Auth.LoginOutcome.resp (some ("a")) (some ("r"))) =
      (Except.ok ("a"), ⟨("a"), ("r")⟩) :=
  ⟨(C9_getAccessToken ⟨("tok"), ("ref")⟩ Auth.LoginOutcome.otherThrown).1 (by decide),
   (C9_getAccessToken ⟨(""), ("")⟩ (Auth.LoginOutcome.resp (some ("a")) (some ("r")))).2
     ⟨("a"), ("r")⟩ rfl rfl⟩

/-! ## C8 — `getAgendasPorMedico` never merges the two query styles -/

/-- C8: when the `codigo_prestador`-style query succeeds with a non-empty
slot list, `getAgendasPorMedico` returns that result whatever the
`cd_prestador`-style query would return; in every case the returned
response is one of the two query results, never a merge; and when the first
composite fetch already produced slots, the orchestrator's output does not
depend on the retry responses at all. -/
theorem C8_no_merge :
    (∀ first second : ApiSvc.ApiResponse ApiSvc.AgendaRec,
      first.success = true → ApiSvc.extractList first.data ≠ [] →
      ApiSvc.getAgendasPorMedico first second = first) ∧
    (∀ first second : ApiSvc.ApiResponse ApiSvc.AgendaRec,
      ApiSvc.getAgendasPorMedico first second = first ∨
      ApiSvc.getAgendasPorMedico first second = second) ∧
    (∀ (env : ApiSvc.Env) (r1 r2 : ApiSvc.ApiResponse ApiSvc.AgendaRec) (p : String)
        (esp : Option (List String)),
      ApiSvc.extractList (ApiSvc.getAgendasPorMedico env.agendaFirst env.agendaSecond).data
        ≠ [] →
      ApiSvc.getAgendasDetalladasPorMedico
        { env with agendaFirstRetry := r1, agendaSecondRetry := r2 } p esp =
      ApiSvc.getAgendasDetalladasPorMedico env p esp) := by
  refine ⟨?_, ?_, ?_⟩
  · intro first second h1 h2
    have hlen : 0 < (ApiSvc.extractList first.data).length := List.length_pos.mpr h2
    simp [ApiSvc.getAgendasPorMedico, h1, hlen]
  · intro first second
    simp only [ApiSvc.getAgendasPorMedico]
    split
    · exact Or.inl rfl
    · split
      · exact Or.inr rfl
      · split
        · exact Or.inl rfl
        · exact Or.inr rfl
  · intro env r1 r2 p esp h
    have hlen : ¬((ApiSvc.extractList
        (ApiSvc.getAgendasPorMedico env.agendaFirst env.agendaSecond).data).length = 0) := by
      simpa [List.length_eq_zero] using h
    have hcr : ApiSvc.agendasCrudas
        { env with agendaFirstRetry := r1, agendaSecondRetry := r2 } =
        ApiSvc.agendasCrudas env := by
      simp only [ApiSvc.agendasCrudas]
      rw [if_neg hlen, if_neg hlen]
    simp only [ApiSvc.getAgendasDetalladasPorMedico, ApiSvc.agendasSeleccionadas, hcr]
    rfl

/-- C8 witness: with a successful non-empty first query the second query's
(failing) result is ignored, and concrete retry responses do not change the
orchestrator's output when the first fetch already returned a slot. -/
theorem C8_no_merge_witness :
    ApiSvc.getAgendasPorMedico
      { data := .arr [Fixtures.a0], success := true, message := none }
      (Fixtures.failR ("x")) =
      { data := .arr [Fixtures.a0], success := true, message := none } ∧
    ApiSvc.getAgendasDetalladasPorMedico
      { Fixtures.env0 with
        agendaFirstRetry := Fixtures.failR ("y")
        agendaSecondRetry := Fixtures.failR ("z") } ("10") none =
    ApiSvc.getAgendasDetalladasPorMedico Fixtures.env0 ("10") none :=
  ⟨C8_no_merge.1 { data := .arr [Fixtures.a0], success := true, message := none }
      (Fixtures.failR ("x")) rfl (by decide),
   C8_no_merge.2.2 Fixtures.env0 (Fixtures.failR ("y")) (Fixtures.failR ("z")) ("10") none
      (by decide)⟩

/-! ## C6 — aggregate success flag and first failing message -/

/-- C6: the orchestrator's `success` is the conjunction of the success flags
of the five fan-out calls; its `message` is the first failing call's message
(in fan-out order, `none` when all succeed); and the `data` it assembles is
unaffected by flipping the success flags or messages of the four catalog
calls — a failed call is recorded without discarding the other calls'
payloads. -/
theorem C6_aggregate (env : ApiSvc.Env) (p : String) (esp : Option (List String)) :
    ((ApiSvc.getAgendasDetalladasPorMedico env p esp).success =
      ((ApiSvc.getAgendasPorMedico env.agendaFirst env.agendaSecond).success &&
        env.medicosR.success && env.consultoriosR.success && env.edificiosR.success &&
        env.diasR.success)) ∧
    ((ApiSvc.getAgendasPorMedico env.agendaFirst env.agendaSecond).success = false →
      (ApiSvc.getAgendasDetalladasPorMedico env p esp).message =
        (ApiSvc.getAgendasPorMedico env.agendaFirst env.agendaSecond).message) ∧
    ((ApiSvc.getAgendasPorMedico env.agendaFirst env.agendaSecond).success = true →
      env.medicosR.success = false →
      (ApiSvc.getAgendasDetalladasPorMedico env p esp).message = env.medicosR.message) ∧
    ((ApiSvc.getAgendasPorMedico env.agendaFirst env.agendaSecond).success = true →
      env.medicosR.success = true → env.consultoriosR.success = false →
      (ApiSvc.getAgendasDetalladasPorMedico env p esp).message = env.consultoriosR.message) ∧
    ((ApiSvc.getAgendasPorMedico env.agendaFirst env.agendaSecond).success = true →
      env.medicosR.success = true → env.consultoriosR.success = true →
      env.edificiosR.success = false →
      (ApiSvc.getAgendasDetalladasPorMedico env p esp).message = env.edificiosR.message) ∧
    ((ApiSvc.getAgendasPorMedico env.agendaFirst env.agendaSecond).success = true →
      env.medicosR.success = true → env.consultoriosR.success = true →
      env.edificiosR.success = true → env.diasR.success = false →
      (ApiSvc.getAgendasDetalladasPorMedico env p esp).message = env.diasR.message) ∧
    ((ApiSvc.getAgendasPorMedico env.agendaFirst env.agendaSecond).success = true →
      env.medicosR.success = true → env.consultoriosR.success = true →
      env.edificiosR.success = true → env.diasR.success = true →
      (ApiSvc.getAgendasDetalladasPorMedico env p esp).message = none) ∧
    (∀ (bm bc be bd : Bool) (mm mc me md : Option String),
      (ApiSvc.getAgendasDetalladasPorMedico
        { env with
          medicosR := { env.medicosR with success := bm, message := mm }
          consultoriosR := { env.consultoriosR with success := bc, message := mc }
          edificiosR := { env.edificiosR with success := be, message := me }
          diasR := { env.diasR with success := bd, message := md } } p esp).data =
      (ApiSvc.getAgendasDetalladasPorMedico env p esp).data) := by
  refine ⟨rfl, ?_, ?_, ?_, ?_, ?_, ?_, fun bm bc be bd mm mc me md => rfl⟩
  · intro h1
    simp [ApiSvc.getAgendasDetalladasPorMedico, ApiSvc.firstFailMessage, ApiSvc.flagOf,
      List.find?, h1]
  · intro h1 h2
    simp [ApiSvc.getAgendasDetalladasPorMedico, ApiSvc.firstFailMessage, ApiSvc.flagOf,
      List.find?, h1, h2]
  · intro h1 h2 h3
    simp [ApiSvc.getAgendasDetalladasPorMedico, ApiSvc.firstFailMessage, ApiSvc.flagOf,
      List.find?, h1, h2, h3]
  · intro h1 h2 h3 h4
    simp [ApiSvc.getAgendasDetalladasPorMedico, ApiSvc.firstFailMessage, ApiSvc.flagOf,
      List.find?, h1, h2, h3, h4]
  · intro h1 h2 h3 h4 h5
    simp [ApiSvc.getAgendasDetalladasPorMedico, ApiSvc.firstFailMessage, ApiSvc.flagOf,
      List.find?, h1, h2, h3, h4, h5]
  · intro h1 h2 h3 h4 h5
    simp [ApiSvc.getAgendasDetalladasPorMedico, ApiSvc.firstFailMessage, ApiSvc.flagOf,
      List.find?, h1, h2, h3, h4, h5]

/-- C6 witness: the aggregate theorem applied at concrete environments in
which each of the five calls fails in turn (and at the all-success
environment), with every hypothesis discharged by evaluation. -/
theorem C6_aggregate_witness :
    (ApiSvc.getAgendasDetalladasPorMedico Fixtures.envAgFail ("10") none).message =
      some ("agenda dos") ∧
    (ApiSvc.getAgendasDetalladasPorMedico Fixtures.envMedFail ("10") none).message =
      some ("medicos") ∧
    (ApiSvc.getAgendasDetalladasPorMedico Fixtures.envConsFail ("10") none).message =
      some ("consultorios") ∧
    (ApiSvc.getAgendasDetalladasPorMedico Fixtures.envEdifFail ("10") none).message =
      some ("edificios") ∧
    (ApiSvc.getAgendasDetalladasPorMedico Fixtures.envDiasFail ("10") none).message =
      some ("dias") ∧
    (ApiSvc.getAgendasDetalladasPorMedico Fixtures.env0 ("10") none).message = none ∧
    (ApiSvc.getAgendasDetalladasPorMedico Fixtures.envMedFail ("10") none).success = false :=
  ⟨(C6_aggregate Fixtures.envAgFail ("10") none).2.1 (by decide),
   (C6_aggregate Fixtures.envMedFail ("10") none).2.2.1 (by decide) (by decide),
   (C6_aggregate Fixtures.envConsFail ("10") none).2.2.2.1 (by decide) (by decide) (by decide),
   (C6_aggregate Fixtures.envEdifFail ("10") none).2.2.2.2.1 (by decide) (by decide)
     (by decide) (by decide),
   (C6_aggregate Fixtures.envDiasFail ("10") none).2.2.2.2.2.1 (by decide) (by decide)
     (by decide) (by decide) (by decide),
   (C6_aggregate Fixtures.env0 ("10") none).2.2.2.2.2.2.1 (by decide) (by decide)
     (by decide) (by decide) (by decide),
   ((C6_aggregate Fixtures.envMedFail ("10") none).1).trans (by decide)⟩

/-! ## C1 — the defensive provider re-check -/

/-- C1: every view-model record the orchestrator emits stems from a slot
whose provider-id alias chain (`codigo_prestador ?? codigoPrestador ??
cd_prestador ?? prestadorId ?? medicoId`) resolves exactly to the requested
provider code; a slot resolving to any other code is mapped to `null` and
filtered out, so it is never emitted. -/
theorem C1_provider_recheck (env : ApiSvc.Env) (p : String) (esp : Option (List String))
    (d : ApiSvc.AgendaDetallada)
    (hd : d ∈ (ApiSvc.getAgendasDetalladasPorMedico env p esp).data) :
    ∃ a ∈ ApiSvc.agendasSeleccionadas env esp,
      ApiSvc.resolvePrestadorId a = p ∧
      ApiSvc.buildDetallada (ApiSvc.orchCtx env) p esp a = some d := by
  have hdata : (ApiSvc.getAgendasDetalladasPorMedico env p esp).data =
      (ApiSvc.agendasSeleccionadas env esp).filterMap
        (ApiSvc.buildDetallada (ApiSvc.orchCtx env) p esp) := rfl
  rw [hdata, List.mem_filterMap] at hd
  obtain ⟨a, ha, hb⟩ := hd
  refine ⟨a, ha, ?_, hb⟩
  by_contra hne
  rw [ApiSvc.buildDetallada, if_pos hne] at hb
  exact Option.noConfusion hb

/-- C1 witness: the re-check theorem applied to the single record the
orchestrator emits for `env0` (one slot of provider 10, requested provider
10). -/
theorem C1_provider_recheck_witness :
    ∃ a ∈ ApiSvc.agendasSeleccionadas Fixtures.env0 none,
      ApiSvc.resolvePrestadorId a = ("10") ∧
      ApiSvc.buildDetallada (ApiSvc.orchCtx Fixtures.env0) ("10") none a =
        some Fixtures.d0 :=
  C1_provider_recheck Fixtures.env0 ("10") none Fixtures.d0 (by decide)

/-! ## C10 — the specialty filter keeps only all-digit member codes -/

/-- C10: a slot passes the specialty filter iff its resolved
item-agendamiento code is a non-empty all-digit string that belongs to the
requested id set — a non-digit code is dropped even when it is literally
equal to a requested id; consequently, with an active filter every emitted
record stems from a slot whose code is a non-empty all-digit member of the
requested set. -/
theorem C10_specialty_filter :
    (∀ (wanted : List String) (agendas : List ApiSvc.AgendaRec) (a : ApiSvc.AgendaRec),
      a ∈ ApiSvc.filtrarPorEspecialidad wanted agendas ↔
        (a ∈ agendas ∧ ApiSvc.resolveItemCode a ≠ "" ∧
         ApiSvc.isAllDigits (ApiSvc.resolveItemCode a) = true ∧
         ApiSvc.resolveItemCode a ∈ wanted)) ∧
    (∀ (env : ApiSvc.Env) (p : String) (wanted : List String)
        (d : ApiSvc.AgendaDetallada),
      d ∈ (ApiSvc.getAgendasDetalladasPorMedico env p (some wanted)).data →
      ∃ a ∈ ApiSvc.agendasCrudas env,
        ApiSvc.resolveItemCode a ≠ "" ∧
        ApiSvc.isAllDigits (ApiSvc.resolveItemCode a) = true ∧
        ApiSvc.resolveItemCode a ∈ wanted ∧
        ApiSvc.buildDetallada (ApiSvc.orchCtx env) p (some wanted) a = some d) := by
  have hfilter : ∀ (wanted : List String) (agendas : List ApiSvc.AgendaRec)
      (a : ApiSvc.AgendaRec),
      a ∈ ApiSvc.filtrarPorEspecialidad wanted agendas ↔
        (a ∈ agendas ∧ ApiSvc.resolveItemCode a ≠ "" ∧
         ApiSvc.isAllDigits (ApiSvc.resolveItemCode a) = true ∧
         ApiSvc.resolveItemCode a ∈ wanted) := by
    intro wanted agendas a
    rw [ApiSvc.filtrarPorEspecialidad, List.mem_filter]
    constructor
    · rintro ⟨ha, hc⟩
      by_cases h1 : ApiSvc.resolveItemCode a ≠ "" ∧
          ApiSvc.isAllDigits (ApiSvc.resolveItemCode a) = true
      · rw [if_pos (by simp [h1.1, h1.2])] at hc
        exact ⟨ha, h1.1, h1.2, by simpa using hc⟩
      · rw [if_neg (by
          intro hcontra
          simp only [Bool.and_eq_true, decide_eq_true_eq] at hcontra
          exact h1 ⟨by simpa using hcontra.1, hcontra.2⟩)] at hc
        exact absurd hc (by simp)
    · rintro ⟨ha, h1, h2, h3⟩
      refine ⟨ha, ?_⟩
      rw [if_pos (by simp [h1, h2])]
      simpa using h3
  refine ⟨hfilter, ?_⟩
  intro env p wanted d hd
  have hdata : (ApiSvc.getAgendasDetalladasPorMedico env p (some wanted)).data =
      (ApiSvc.agendasSeleccionadas env (some wanted)).filterMap
        (ApiSvc.buildDetallada (ApiSvc.orchCtx env) p (some wanted)) := rfl
  rw [hdata, List.mem_filterMap] at hd
  obtain ⟨a, ha, hb⟩ := hd
  rw [ApiSvc.agendasSeleccionadas] at ha
  by_cases hlen : 0 < (ApiSvc.agendasCrudas env).length
  · rw [if_pos (by simpa using hlen)] at ha
    obtain ⟨hac, h1, h2, h3⟩ := (hfilter wanted (ApiSvc.agendasCrudas env) a).mp ha
    exact ⟨a, hac, h1, h2, h3, hb⟩
  · rw [if_neg (by simpa using hlen)] at ha
    have : ApiSvc.agendasCrudas env = [] := by
      cases h : ApiSvc.agendasCrudas env with
      | nil => rfl
      | cons x xs => rw [h] at hlen; simp at hlen
    rw [this] at ha
    exact absurd ha (by simp)

/-- C10 witness: applied to the record emitted for a slot whose code `"12"`
is an all-digit member of the requested set `["12"]`. -/
theorem C10_specialty_filter_witness :
    ∃ a ∈ ApiSvc.agendasCrudas Fixtures.env1,
      ApiSvc.resolveItemCode a ≠ "" ∧
      ApiSvc.isAllDigits (ApiSvc.resolveItemCode a) = true ∧
      ApiSvc.resolveItemCode a ∈ [("12")] ∧
      ApiSvc.buildDetallada (ApiSvc.orchCtx Fixtures.env1) ("10") (some [("12")]) a =
        some Fixtures.d1 :=
  C10_specialty_filter.2 Fixtures.env1 ("10") [("12")] Fixtures.d1 (by decide)

/-! ## C3 — `slugify` shape lemmas -/

open SlugSpec NormalizationService in
/-- Unfolding `hasDD` over a cons cell. -/
theorem hasDD_cons (a : Char) (l : List Char) :
    hasDD (a :: l) = ((decide (a = '-') && headIsDash l) || hasDD l) := by
  cases l with
  | nil => simp [hasDD, headIsDash]
  | cons b bs => simp [hasDD, headIsDash]

open SlugSpec in
/-- Membership is preserved from `dropEndWhile` back to the source list. -/
theorem mem_dropEndWhile (p : Char → Bool) (l : List Char) (x : Char)
    (hx : x ∈ dropEndWhile p l) : x ∈ l := by
  induction l with
  | nil => simp [dropEndWhile] at hx
  | cons c rest ih =>
    rw [dropEndWhile] at hx
    cases hr : dropEndWhile p rest with
    | nil =>
      rw [hr] at hx
      by_cases hp : p c = true
      · rw [if_pos hp] at hx
        exact absurd hx (by simp)
      · rw [if_neg hp] at hx
        simp only [List.mem_singleton] at hx
        simp [hx]
    | cons d ds =>
      rw [hr] at hx
      rcases List.mem_cons.mp hx with h | h
      · simp [h]
      · exact List.mem_cons_of_mem c (ih (hr ▸ h))

open SlugSpec in
/-- `dropEndWhile` preserves an `all` invariant. -/
theorem all_dropEndWhile (p q : Char → Bool) (l : List Char)
    (h : l.all q = true) : (dropEndWhile p l).all q = true := by
  rw [List.all_eq_true] at h ⊢
  exact fun x hx => h x (mem_dropEndWhile p l x hx)

open SlugSpec in
/-- `dropEndWhile` keeps a non-hyphen head non-hyphen. -/
theorem headNotDash_dropEndWhile (p : Char → Bool) (l : List Char)
    (h : headIsDash l = false) : headIsDash (dropEndWhile p l) = false := by
  cases l with
  | nil => simp [dropEndWhile, headIsDash]
  | cons c rest =>
    rw [dropEndWhile]
    cases hr : dropEndWhile p rest with
    | nil =>
      by_cases hp : p c = true
      · rw [if_pos hp]; rfl
      · rw [if_neg hp]
        simpa [headIsDash] using h
    | cons d ds => simpa [headIsDash] using h

open SlugSpec NormalizationService in
/-- After dropping the trailing hyphen run, the last character is not a
hyphen. -/
theorem lastNotDash_dropEndWhile (l : List Char) :
    lastIsDash (dropEndWhile isDash l) = false := by
  induction l with
  | nil => rfl
  | cons c rest ih =>
    rw [dropEndWhile]
    cases hr : dropEndWhile isDash rest with
    | nil =>
      by_cases hp : isDash c = true
      · rw [if_pos hp]; rfl
      · rw [if_neg hp]
        simpa [lastIsDash, isDash] using hp
    | cons d ds =>
      rw [hr] at ih
      simpa [lastIsDash] using ih

open SlugSpec NormalizationService in
/-- `dropEndWhile` preserves the absence of adjacent hyphens. -/
theorem hasDD_dropEndWhile (l : List Char) (h : hasDD l = false) :
    hasDD (dropEndWhile isDash l) = false := by
  induction l with
  | nil => simp [dropEndWhile, hasDD]
  | cons c rest ih =>
    rw [hasDD_cons, Bool.or_eq_false_iff, Bool.and_eq_false_iff] at h
    obtain ⟨h1, h2⟩ := h
    rw [dropEndWhile]
    cases hr : dropEndWhile isDash rest with
    | nil =>
      by_cases hp : isDash c = true
      · rw [if_pos hp]; rfl
      · rw [if_neg hp]; rfl
    | cons d ds =>
      have ihr : hasDD (d :: ds) = false := hr ▸ ih h2
      rw [hasDD_cons]
      rcases h1 with h1 | h1
      · simp [h1, ihr]
      · have hhd : headIsDash (dropEndWhile isDash rest) = false :=
          headNotDash_dropEndWhile isDash rest h1
        rw [hr] at hhd
        simp [hhd, ihr]

open SlugSpec in
/-- `dropWhile` leaves a list all of whose elements fail the predicate. -/
theorem dropWhile_eq_self_of_none (p : Char → Bool) (l : List Char)
    (h : ∀ x ∈ l, p x = false) : l.dropWhile p = l := by
  cases l with
  | nil => rfl
  | cons c rest => simp [List.dropWhile_cons, h c (by simp)]

open SlugSpec in
/-- `dropEndWhile` leaves a list all of whose elements fail the predicate. -/
theorem dropEndWhile_eq_self_of_none (p : Char → Bool) (l : List Char)
    (h : ∀ x ∈ l, p x = false) : dropEndWhile p l = l := by
  induction l with
  | nil => rfl
  | cons c rest ih =>
    have ihr : dropEndWhile p rest = rest := ih (fun x hx => h x (by simp [hx]))
    rw [dropEndWhile, ihr]
    cases rest with
    | nil => simp [h c (by simp)]
    | cons d ds => rfl

open SlugSpec NormalizationService in
/-- Dropping the leading hyphen run leaves a non-hyphen head. -/
theorem headNotDash_dropWhile (l : List Char) :
    headIsDash (l.dropWhile isDash) = false := by
  induction l with
  | nil => rfl
  | cons c rest ih =>
    by_cases hp : isDash c = true
    · simpa [List.dropWhile_cons, hp] using ih
    · rw [List.dropWhile_cons, if_neg hp]
      show isDash c = false
      simpa using hp

open SlugSpec in
/-- `dropWhile` preserves the absence of adjacent hyphens. -/
theorem hasDD_dropWhile (p : Char → Bool) (l : List Char) (h : hasDD l = false) :
    hasDD (l.dropWhile p) = false := by
  induction l with
  | nil => simpa using h
  | cons c rest ih =>
    rw [hasDD_cons, Bool.or_eq_false_iff] at h
    by_cases hp : p c = true
    · simpa [List.dropWhile_cons, hp] using ih h.2
    · rw [List.dropWhile_cons, if_neg hp, hasDD_cons]
      simp [h.1, h.2]

open SlugSpec in
/-- Membership is preserved from `dropWhile` back to the source list. -/
theorem mem_dropWhile (p : Char → Bool) (l : List Char) (x : Char)
    (hx : x ∈ l.dropWhile p) : x ∈ l := by
  induction l with
  | nil => simp at hx
  | cons c rest ih =>
    by_cases hp : p c = true
    · rw [List.dropWhile_cons, if_pos hp] at hx
      exact List.mem_cons_of_mem c (ih hx)
    · rwa [List.dropWhile_cons, if_neg hp] at hx

open SlugSpec in
/-- `dropWhile` preserves an `all` invariant. -/
theorem all_dropWhile (p q : Char → Bool) (l : List Char) (h : l.all q = true) :
    (l.dropWhile p).all q = true := by
  rw [List.all_eq_true] at h ⊢
  exact fun x hx => h x (mem_dropWhile p l x hx)

open SlugSpec NormalizationService in
/-- Every character emitted by the dashify state machine is a slug
character. -/
theorem dashifyAux_all (l : List Char) : ∀ b, (dashifyAux l b).all isSlugChar = true := by
  induction l with
  | nil => intro b; rfl
  | cons c rest ih =>
    intro b
    rw [dashifyAux]
    by_cases hc : isAlnumLower c = true
    · rw [if_pos hc]
      simp [isSlugChar, hc, ih false]
    · rw [if_neg hc]
      cases b with
      | true => simpa using ih true
      | false => simp [isSlugChar, ih true]

open SlugSpec NormalizationService in
/-- With the flag set (the previous character opened a hyphen run), the
state machine never emits a hyphen first. -/
theorem dashifyAux_head_true (l : List Char) :
    headIsDash (dashifyAux l true) = false := by
  induction l with
  | nil => rfl
  | cons c rest ih =>
    rw [dashifyAux]
    by_cases hc : isAlnumLower c = true
    · rw [if_pos hc]
      show decide (c = '-') = false
      cases hd : decide (c = '-') with
      | false => rfl
      | true =>
        have : c = '-' := of_decide_eq_true hd
        subst this
        exact absurd hc (by decide)
    · rw [if_neg hc]
      simpa using ih

open SlugSpec NormalizationService in
/-- The dashify state machine never emits two adjacent hyphens. -/
theorem dashifyAux_hasDD (l : List Char) : ∀ b, hasDD (dashifyAux l b) = false := by
  induction l with
  | nil => intro b; rfl
  | cons c rest ih =>
    intro b
    rw [dashifyAux]
    by_cases hc : isAlnumLower c = true
    · rw [if_pos hc, hasDD_cons]
      have hcd : decide (c = '-') = false := by
        cases hd : decide (c = '-') with
        | false => rfl
        | true =>
          have : c = '-' := of_decide_eq_true hd
          subst this
          exact absurd hc (by decide)
      simp [hcd, ih false]
    · rw [if_neg hc]
      cases b with
      | true => simpa using ih true
      | false =>
        simp only [Bool.false_eq_true, if_false]
        rw [hasDD_cons]
        simp [dashifyAux_head_true, ih true]

open SlugSpec NormalizationService in
/-- On a list of slug characters without adjacent hyphens, the dashify state
machine is the identity (and also with the flag set, provided the head is
not a hyphen). -/
theorem dashifyAux_id (l : List Char) (hall : l.all isSlugChar = true)
    (hdd : hasDD l = false) :
    dashifyAux l false = l ∧ (headIsDash l = false → dashifyAux l true = l) := by
  induction l with
  | nil => exact ⟨rfl, fun _ => rfl⟩
  | cons c rest ih =>
    rw [List.all_cons, Bool.and_eq_true] at hall
    obtain ⟨hc, hrest⟩ := hall
    rw [hasDD_cons, Bool.or_eq_false_iff, Bool.and_eq_false_iff] at hdd
    obtain ⟨h1, h2⟩ := hdd
    obtain ⟨ih1, ih2⟩ := ih hrest h2
    constructor
    · rw [dashifyAux]
      by_cases ha : isAlnumLower c = true
      · rw [if_pos ha, ih1]
      · rw [if_neg ha]
        have hcd : c = '-' := by
          rw [isSlugChar, Bool.or_eq_true] at hc
          rcases hc with hc | hc
          · exact absurd hc ha
          · exact of_decide_eq_true hc
        have hhd : headIsDash rest = false := by
          rcases h1 with h1 | h1
          · rw [hcd] at h1; simp at h1
          · exact h1
        rw [if_neg (by simp), ih2 hhd, hcd]
    · intro hhead
      have ha : isAlnumLower c = true := by
        rw [isSlugChar, Bool.or_eq_true] at hc
        rcases hc with hc | hc
        · exact hc
        · exact absurd hc (by simpa [headIsDash] using hhead)
      rw [dashifyAux, if_pos ha, ih1]

open NormalizationService in
/-- Slug characters are fixed points of the lower-casing model. -/
theorem lowerChar_slug (c : Char) (h : isSlugChar c = true) : lowerChar c = c := by
  rw [isSlugChar, Bool.or_eq_true] at h
  rcases h with h | h
  · rw [isAlnumLower, Bool.or_eq_true, Bool.and_eq_true, Bool.and_eq_true] at h
    simp only [decide_eq_true_eq] at h
    rw [lowerChar, if_neg (by simp; omega), if_neg (by simp; omega)]
  · have : c = '-' := of_decide_eq_true h
    subst this
    decide

open NormalizationService in
/-- Slug characters are not whitespace. -/
theorem slug_not_ws (c : Char) (h : isSlugChar c = true) : isWS c = false := by
  rw [isSlugChar, Bool.or_eq_true] at h
  rcases h with h | h
  · rw [isAlnumLower, Bool.or_eq_true, Bool.and_eq_true, Bool.and_eq_true] at h
    simp only [decide_eq_true_eq] at h
    simp only [isWS, Bool.or_eq_false_iff]
    simp only [decide_eq_false_iff_not]
    omega
  · have : c = '-' := of_decide_eq_true h
    subst this
    decide

open NormalizationService in
/-- Slug characters are not combining marks. -/
theorem slug_not_combining (c : Char) (h : isSlugChar c = true) :
    isCombiningMark c = false := by
  rw [isSlugChar, Bool.or_eq_true] at h
  rcases h with h | h
  · rw [isAlnumLower, Bool.or_eq_true, Bool.and_eq_true, Bool.and_eq_true] at h
    simp only [decide_eq_true_eq] at h
    simp only [isCombiningMark, Bool.and_eq_false_iff]
    simp only [decide_eq_false_iff_not]
    omega
  · have : c = '-' := of_decide_eq_true h
    subst this
    decide

open NormalizationService in
/-- A list of fixed points is left unchanged by `map`. -/
theorem map_eq_self_of_fixed (f : Char → Char) (l : List Char)
    (h : ∀ x ∈ l, f x = x) : l.map f = l := by
  induction l with
  | nil => rfl
  | cons c rest ih => simp [h c (by simp), ih (fun x hx => h x (by simp [hx]))]

open SlugSpec NormalizationService in
/-- The output of `slugCore` is a well-formed slug: only `[a-z0-9-]`
characters, no adjacent hyphens, and no leading or trailing hyphen. -/
theorem slugCore_spec (l : List Char) :
    (slugCore l).all isSlugChar = true ∧ hasDD (slugCore l) = false ∧
    headIsDash (slugCore l) = false ∧ lastIsDash (slugCore l) = false := by
  rw [slugCore, trimDashes]
  set m := dashify (jsTrimL ((l.filter (fun c => !isCombiningMark c)).map lowerChar)) with hm
  have hall : m.all isSlugChar = true := dashifyAux_all _ false
  have hdd : hasDD m = false := dashifyAux_hasDD _ false
  refine ⟨?_, ?_, ?_, ?_⟩
  · exact all_dropEndWhile _ _ _ (all_dropWhile _ _ _ hall)
  · exact hasDD_dropEndWhile _ (hasDD_dropWhile _ _ hdd)
  · exact headNotDash_dropEndWhile _ _ (headNotDash_dropWhile m)
  · exact lastNotDash_dropEndWhile _

open SlugSpec NormalizationService in
/-- On a well-formed slug, `slugCore` is the identity. -/
theorem slugCore_id (l : List Char) (hall : l.all isSlugChar = true)
    (hdd : hasDD l = false) (hhead : headIsDash l = false)
    (hlast : lastIsDash l = false) : slugCore l = l := by
  have hmem : ∀ x ∈ l, isSlugChar x = true := List.all_eq_true.mp hall
  have h1 : l.filter (fun c => !isCombiningMark c) = l := by
    rw [List.filter_eq_self]
    intro x hx
    simp [slug_not_combining x (hmem x hx)]
  have h2 : l.map lowerChar = l :=
    map_eq_self_of_fixed _ _ (fun x hx => lowerChar_slug x (hmem x hx))
  have h3 : jsTrimL l = l := by
    rw [jsTrimL, dropWhile_eq_self_of_none _ _ (fun x hx => slug_not_ws x (hmem x hx)),
      dropEndWhile_eq_self_of_none _ _ (fun x hx => slug_not_ws x (hmem x hx))]
  have h4 : dashify l = l := (dashifyAux_id l hall hdd).1
  have h5 : l.dropWhile isDash = l := by
    cases l with
    | nil => rfl
    | cons c rest =>
      rw [List.dropWhile_cons, if_neg]
      simpa [isDash, headIsDash] using hhead
  have h6 : dropEndWhile isDash l = l := by
    clear hall hdd hhead hmem h1 h2 h3 h4 h5
    induction l with
    | nil => rfl
    | cons c rest ih =>
      rw [dropEndWhile]
      cases rest with
      | nil =>
        have hne : ¬c = '-' := by simpa [lastIsDash] using hlast
        simp [dropEndWhile, isDash, hne]
      | cons d ds =>
        have : lastIsDash (d :: ds) = false := by simpa [lastIsDash] using hlast
        rw [ih this]
    
  rw [slugCore, h1, h2, h3, h4, trimDashes, h5, h6]

open SlugSpec in
/-- C3: for any model `nfd` of `normalize('NFD')` that fixes strings already
made of slug characters (true of Unicode NFD, since such strings are pure
ASCII), `slugify` is idempotent on every input string, and its output always
matches `^[a-z0-9-]*$` with no leading and no trailing hyphen. -/
theorem C3_slugify_idempotent_shape (nfd : String → String)
    (hnfd : ∀ s : String, s.data.all NormalizationService.isSlugChar = true → nfd s = s)
    (x : String) :
    NormalizationService.slugify nfd (NormalizationService.slugify nfd x) =
      NormalizationService.slugify nfd x ∧
    (NormalizationService.slugify nfd x).data.all NormalizationService.isSlugChar = true ∧
    headIsDash (NormalizationService.slugify nfd x).data = false ∧
    lastIsDash (NormalizationService.slugify nfd x).data = false := by
  obtain ⟨hall, hdd, hhead, hlast⟩ := slugCore_spec ((nfd x).data)
  have hy : (NormalizationService.slugify nfd x).data =
      NormalizationService.slugCore ((nfd x).data) := rfl
  refine ⟨?_, hy ▸ hall, hy ▸ hhead, hy ▸ hlast⟩
  have hfix : nfd (NormalizationService.slugify nfd x) =
      NormalizationService.slugify nfd x := hnfd _ (hy ▸ hall)
  show String.mk (NormalizationService.slugCore
      (nfd (NormalizationService.slugify nfd x)).data) =
    NormalizationService.slugify nfd x
  rw [hfix, hy, slugCore_id _ hall hdd hhead hlast]
  rfl

/-- C3 witness: the theorem applied with the identity as the NFD model (it
fixes slug strings) on a concrete messy input. -/
theorem C3_slugify_idempotent_shape_witness :
    NormalizationService.slugify (fun s => s)
        (NormalizationService.slugify (fun s => s) (" Cafe!__Nino ")) =
      NormalizationService.slugify (fun s => s) (" Cafe!__Nino ") ∧
    (NormalizationService.slugify (fun s => s) (" Cafe!__Nino ")).data.all
      NormalizationService.isSlugChar = true ∧
    SlugSpec.headIsDash
      (NormalizationService.slugify (fun s => s) (" Cafe!__Nino ")).data = false ∧
    SlugSpec.lastIsDash
      (NormalizationService.slugify (fun s => s) (" Cafe!__Nino ")).data = false :=
  C3_slugify_idempotent_shape (fun s => s) (fun _ _ => rfl) (" Cafe!__Nino ")
